import Mathlib

/-!
Shallow embedding of the Iris prediction service (src/iris-fast-api.py).

The service has two handlers (a liveness root handler and a predict
handler), a startup model loader, and a single piece of process-wide
state: the model handle, which is an optional reference to an opaque
external model object.  Request field values are modelled as rationals;
the external model object is modelled as a structure carrying its one
operation, a fallible `predict` taking a list of numeric rows and
returning an array of labels.  The predict handler is instrumented with
an explicit trace of the inputs it passes to the model's predict
operation, so that claims about how often and with what argument
inference is invoked become statements about that trace.
-/

namespace IrisAPI

variable {ε α : Type}

/-- The request schema of the predict endpoint (class IrisRequest): four
required numeric fields. -/
structure IrisRequest where
  sepal_length : ℚ
  sepal_width : ℚ
  petal_length : ℚ
  petal_width : ℚ

/-- The opaque external model object.  Its single contract is a predict
operation taking a sequence of fixed-length numeric rows and returning a
prediction array, which may also fail (raise) with an error of type ε. -/
structure Model (ε α : Type) where
  predict : List (List ℚ) → Except ε (Array α)

/-- The payload returned by the predict handler: either the error-shaped
payload (the "error" key) or a prediction payload (the "prediction" key,
holding a plain ordered sequence of labels). -/
inductive PredictResponse (α : Type) where
  | error (msg : String)
  | prediction (labels : List α)

/-- The payload returned by the root handler: a single "message" key. -/
structure RootResponse where
  message : String

/-- The configured model artifact path (MODEL_PATH): read from an
environment lookup, defaulting to the fixed relative path. -/
def MODEL_PATH (env : String → Option String) : String :=
  (env "MODEL_PATH").getD "./model.joblib"

/-- The startup loader (load_model).  The outcome of the external
deserialization call (joblib.load) is passed in as an Except value; the
loader turns it into the model handle together with the emitted log
lines.  It is a total function: every deserialization failure is caught
and mapped to the absent handle plus a diagnostic line. -/
def load_model (loadResult : Except String (Model ε α)) (modelPath : String) :
    Option (Model ε α) × List String :=
  match loadResult with
  | Except.ok m => (some m, ["✅ Model loaded successfully from " ++ modelPath])
  | Except.error e => (none, ["⚠️ Model not loaded: " ++ e])

/-- The root handler (root): returns the fixed liveness payload. -/
def root : RootResponse :=
  { message := "Iris API is up and running" }

/-- The predict handler (predict).  First component: the handler's
outcome, where Except.error is an exception propagating out of the
handler unhandled and Except.ok is a normal (successful-status)
structured response.  Second component: the trace of inputs passed to
the model's predict operation during the request, one entry per
inference call. -/
def predict (model : Option (Model ε α)) (data : IrisRequest) :
    Except ε (PredictResponse α) × List (List (List ℚ)) :=
  match model with
  | none => (Except.ok (PredictResponse.error "Model not loaded"), [])
  | some m =>
      match m.predict
          [[data.sepal_length, data.sepal_width, data.petal_length, data.petal_width]] with
      | Except.error e =>
          (Except.error e,
           [[[data.sepal_length, data.sepal_width, data.petal_length, data.petal_width]]])
      | Except.ok pred =>
          (Except.ok (PredictResponse.prediction pred.toList),
           [[[data.sepal_length, data.sepal_width, data.petal_length, data.petal_width]]])

/-- An incoming request event: either a liveness probe or a predict
request carrying a request body. -/
inductive Event where
  | rootReq
  | predictReq (data : IrisRequest)

/-- A response produced by the app for one event. -/
inductive Response (ε α : Type) where
  | fromRoot (r : RootResponse)
  | fromPredict (r : Except ε (PredictResponse α))

/-- One request handled by the app: the handler runs against the current
model handle and neither handler assigns to the handle, so the state
after the request is the state before it. -/
def appStep (st : Option (Model ε α)) (ev : Event) :
    Option (Model ε α) × Response ε α :=
  match ev with
  | Event.rootReq => (st, Response.fromRoot root)
  | Event.predictReq d => (st, Response.fromPredict (predict st d).1)

/-- The model handle after a sequence of requests has been handled,
starting from a given handle state. -/
def runState : Option (Model ε α) → List Event → Option (Model ε α)
  | st, [] => st
  | st, e :: rest => runState (appStep st e).1 rest

/-- The model handle produced at process startup: the loader runs once
and its first component becomes the process-wide handle. -/
def processStart (loadResult : Except String (Model ε α)) (modelPath : String) :
    Option (Model ε α) :=
  (load_model loadResult modelPath).1

/-- The external predict contract assumed of a well-formed model: the
returned prediction array has one label per input row. -/
def Model.labelPerRow (m : Model ε α) : Prop :=
  ∀ X pred, m.predict X = Except.ok pred → pred.size = X.length

/-- A sample deterministic model used to instantiate hypotheses on
concrete inputs: it predicts label 0 for every row. -/
def zeroModel : Model String ℕ :=
  { predict := fun X => Except.ok (Array.mk (X.map fun _ => 0)) }

/-- A sample always-failing model: its predict operation raises on every
input. -/
def failModel : Model String ℕ :=
  { predict := fun _ => Except.error "shape mismatch" }

/-- The sample request from the specification. -/
def sampleRequest : IrisRequest :=
  { sepal_length := 51/10, sepal_width := 35/10, petal_length := 14/10, petal_width := 2/10 }

/-- Helper: no event changes the model handle. -/
theorem appStep_state (st : Option (Model ε α)) (ev : Event) : (appStep st ev).1 = st := by
  cases ev <;> rfl

/-- Helper: the model handle is constant along any sequence of requests. -/
theorem runState_const (evs : List Event) :
    ∀ st : Option (Model ε α), runState st evs = st := by
  induction evs with
  | nil => intro st; rfl
  | cons e rest ih =>
      intro st
      show runState (appStep st e).1 rest = st
      rw [appStep_state, ih st]

/-- Claim C1: with a loaded model, the predict handler passes the model's
predict operation a single-row, four-column numeric input exactly once,
and returns a prediction payload holding the returned prediction array
converted verbatim to a plain ordered sequence. -/
theorem predict_single_call_tolist (m : Model ε α) (d : IrisRequest) (pred : Array α)
    (h : m.predict [[d.sepal_length, d.sepal_width, d.petal_length, d.petal_width]]
      = Except.ok pred) :
    predict (some m) d =
      (Except.ok (PredictResponse.prediction pred.toList),
       [[[d.sepal_length, d.sepal_width, d.petal_length, d.petal_width]]]) := by
  simp only [predict, h]

/-- Witness for C1 at a concrete model and request. -/
theorem predict_single_call_tolist_witness :
    predict (some zeroModel) sampleRequest =
      (Except.ok (PredictResponse.prediction ([0] : List ℕ)),
       [[[51/10, 35/10, 14/10, 2/10]]]) :=
  predict_single_call_tolist zeroModel sampleRequest (Array.mk [0]) rfl

/-- Claim C2: the feature row passed to inference is exactly the ordered
4-tuple of the request fields in the fixed order sepal_length,
sepal_width, petal_length, petal_width; in particular, for the request
with values 5.1, 3.5, 1.4, 0.2 the row passed to inference is
[5.1, 3.5, 1.4, 0.2]. -/
theorem feature_vector_order :
    (∀ (ε α : Type) (m : Model ε α) (d : IrisRequest),
      (predict (some m) d).2 =
        [[[d.sepal_length, d.sepal_width, d.petal_length, d.petal_width]]]) ∧
    (predict (some zeroModel) sampleRequest).2 = [[[51/10, 35/10, 14/10, 2/10]]] := by
  constructor
  · intro ε α m d
    cases hp : m.predict
        [[d.sepal_length, d.sepal_width, d.petal_length, d.petal_width]] <;>
      simp only [predict, hp]
  · rfl

/-- Claim C3: with the model handle absent, the predict handler returns
the structured error payload as a normal successful-status response, not
a transport-level error. -/
theorem predict_absent_error_payload :
    ∀ d : IrisRequest,
      (predict (none : Option (Model ε α)) d).1 =
        Except.ok (PredictResponse.error "Model not loaded") := by
  intro d; rfl

/-- Claim C4: the root handler returns the fixed liveness payload, and
handling a liveness probe neither depends on nor changes the model
handle. -/
theorem root_fixed_payload :
    root.message = "Iris API is up and running" ∧
    ∀ (ε α : Type) (st : Option (Model ε α)),
      appStep st Event.rootReq = (st, Response.fromRoot root) := by
  exact ⟨rfl, fun ε α st => rfl⟩

/-- Claim C5: every deserialization failure at startup is caught: the
loader returns (it never raises), sets the handle to absent, emits a
diagnostic line, and the process still serves requests afterwards: the
liveness probe answers with the fixed payload and the predict endpoint
answers with the structured error payload. -/
theorem load_failure_graceful :
    ∀ (e modelPath : String) (d : IrisRequest),
      load_model (Except.error e : Except String (Model ε α)) modelPath =
        (none, ["⚠️ Model not loaded: " ++ e]) ∧
      (appStep (processStart (Except.error e : Except String (Model ε α)) modelPath)
          Event.rootReq).2 = Response.fromRoot root ∧
      (appStep (processStart (Except.error e : Except String (Model ε α)) modelPath)
          (Event.predictReq d)).2 =
        Response.fromPredict (Except.ok (PredictResponse.error "Model not loaded")) := by
  intro e modelPath d
  exact ⟨rfl, rfl, rfl⟩

/-- Claim C6: with a loaded model satisfying the external one-label-per-
row predict contract, a prediction payload returned by the predict
handler holds a sequence of length at least 1. -/
theorem predict_length_pos (m : Model ε α) (hm : m.labelPerRow) (d : IrisRequest)
    (labels : List α)
    (h : (predict (some m) d).1 = Except.ok (PredictResponse.prediction labels)) :
    1 ≤ labels.length := by
  revert h
  cases hp : m.predict
      [[d.sepal_length, d.sepal_width, d.petal_length, d.petal_width]] with
  | error e =>
      intro h
      simp only [predict, hp] at h
      exact Except.noConfusion h
  | ok pred =>
      intro h
      simp only [predict, hp, Except.ok.injEq, PredictResponse.prediction.injEq] at h
      have hsize : pred.size = 1 := hm _ _ hp
      rw [← h, Array.length_toList, hsize]

/-- Witness for C6 at a concrete model and request. -/
theorem predict_length_pos_witness : 1 ≤ ([0] : List ℕ).length :=
  predict_length_pos zeroModel
    (fun X pred h => by
      simp only [zeroModel] at h
      cases h
      simp)
    sampleRequest [0] rfl

/-- Claim C7: the predict handler is a deterministic, side-effect-free
function of the model handle and the request fields: it leaves the
handle unchanged, and identical requests issued at any two points of a
run from the same initial handle produce identical responses. -/
theorem predict_idempotent :
    ∀ (st : Option (Model ε α)) (evs1 evs2 : List Event) (d : IrisRequest),
      (appStep (runState st evs1) (Event.predictReq d)).2 =
        (appStep (runState st evs2) (Event.predictReq d)).2 ∧
      (appStep st (Event.predictReq d)).1 = st := by
  intro st evs1 evs2 d
  rw [runState_const, runState_const]
  exact ⟨rfl, rfl⟩

/-- Claim C8: the model handle has exactly the two states absent and
loaded, is written once by the loader at startup, and no subsequent
request changes it: along any sequence of requests the handle stays
exactly what startup produced. -/
theorem model_handle_write_once :
    ∀ (loadResult : Except String (Model ε α)) (modelPath : String) (evs : List Event)
      (st : Option (Model ε α)) (ev : Event),
      runState (processStart loadResult modelPath) evs = processStart loadResult modelPath ∧
      (appStep st ev).1 = st ∧
      (st = none ∨ ∃ m, st = some m) := by
  intro loadResult modelPath evs st ev
  refine ⟨runState_const evs _, appStep_state st ev, ?_⟩
  cases st with
  | none => exact Or.inl rfl
  | some m => exact Or.inr ⟨m, rfl⟩

/-- Claim C9: if the loaded model's predict operation raises, the predict
handler does not catch the failure: the handler's outcome is that very
failure, not any response payload. -/
theorem inference_failure_propagates (m : Model ε α) (d : IrisRequest) (e : ε)
    (h : m.predict [[d.sepal_length, d.sepal_width, d.petal_length, d.petal_width]]
      = Except.error e) :
    (predict (some m) d).1 = Except.error e := by
  simp only [predict, h]

/-- Witness for C9 at a concrete failing model and request. -/
theorem inference_failure_propagates_witness :
    (predict (some failModel) sampleRequest).1 = Except.error "shape mismatch" :=
  inference_failure_propagates failModel sampleRequest "shape mismatch" rfl

/-- Claim C10: with the model handle absent, the predict handler returns
the error payload with an empty inference trace: no call to the model's
predict operation occurs. -/
theorem predict_absent_no_inference :
    ∀ d : IrisRequest,
      predict (none : Option (Model ε α)) d =
        (Except.ok (PredictResponse.error "Model not loaded"), []) := by
  intro d; rfl

end IrisAPI
